import Mathlib

/-!
Shallow embedding of the location-aware retrieval core of
`src/Vector_Database/ChromaDB_v1.py` (class `ChromaDBManager`).

Modelling conventions:
* Python floats are modelled as exact rationals `ℚ` wherever the code only
  compares, subtracts and divides them; the transcendental Haversine
  `calculate_distance` is modelled over the reals `ℝ`.
* Inside the re-ranker the distance function is taken as a parameter
  (it is the injected collaborator `self.calculate_distance` in the source),
  which keeps the scoring and ranking logic executable on concrete inputs.
* A Python value on which `float(...)` may raise is modelled by `CoordVal`;
  an absent dictionary key is modelled by `Option`.
* The backing JSON corpus of `extract_location_from_query` is modelled by
  `Option (List LocationRecord)`: `none` stands for a missing, unreadable or
  malformed `fukui_enhanced_locations.json` (all those failures are caught in
  the source and collapse to the same "no location" outcome).
-/

namespace ChromaDB

/-- A metadata/JSON field value as seen by Python `float(...)`: either a value
that converts successfully to a float, or one on which `float` raises
`ValueError`/`TypeError` (e.g. a non-numeric string or a wrong type). -/
inductive CoordVal where
  | ok (q : ℚ)
  | malformed
deriving DecidableEq

/-- Python `float(v)`: the parsed value, or `none` when `float` raises. -/
def pyFloat : CoordVal → Option ℚ
  | .ok q => some q
  | .malformed => none

/-- The metadata fields the re-ranker reads from a candidate document:
`result_metadata.get('city', '')`, `.get('latitude')`, `.get('longitude')`
(lines 258, 265-266). `none` models an absent key. -/
structure Metadata where
  city : Option String
  latitude : Option CoordVal
  longitude : Option CoordVal
deriving DecidableEq

/-- `result_metadata.get('city', '')` (line 258): the city, defaulting to the
empty string when the key is absent. -/
def getCity (m : Metadata) : String :=
  match m.city with
  | some s => s
  | none => ""

/-- One hit of the initial vector query, as assembled on lines 244-250:
content, metadata and the semantic distance reported by the vector store. -/
structure Candidate where
  content : String
  metadata : Metadata
  distance : ℚ
deriving DecidableEq

/-- A candidate annotated with its geographic `location_score` (line 249). -/
structure ScoredResult where
  content : String
  metadata : Metadata
  distance : ℚ
  location_score : ℚ
deriving DecidableEq

/-- A reference location resolved from the query, as returned by
`extract_location_from_query`: `(city, latitude, longitude)`. -/
abbrev QueryLocation := String × ℚ × ℚ

/-- Python's builtin `max(a, b)` on two numbers. -/
def pyMax (a b : ℚ) : ℚ := if a ≤ b then b else a

/-- The distance-based branch of the scoring (lines 261-281): when both
coordinate fields are present and convert to floats, the score is
`max(0, (threshold - d) / threshold)` if `d ≤ threshold` and stays `0`
beyond the threshold; an absent or malformed field leaves the score at `0`
(the `ValueError`/`TypeError` handler on line 280 swallows the failure). -/
def coordScore (dist : ℚ → ℚ → ℚ → ℚ → ℚ) (distance_threshold_km : ℚ)
    (query_lat query_lng : ℚ) (m : Metadata) : ℚ :=
  match m.latitude.bind pyFloat, m.longitude.bind pyFloat with
  | some result_lat, some result_lng =>
    let d := dist query_lat query_lng result_lat result_lng
    if d ≤ distance_threshold_km then
      pyMax 0 ((distance_threshold_km - d) / distance_threshold_km)
    else 0
  | _, _ => 0

/-- `location_score` of one candidate against a resolved query location
(lines 252-281): the same-city bonus `same_city_weight` when the candidate's
city equals the query city, otherwise the distance-based score. -/
def locationScore (dist : ℚ → ℚ → ℚ → ℚ → ℚ)
    (same_city_weight distance_threshold_km : ℚ)
    (qloc : QueryLocation) (m : Metadata) : ℚ :=
  if getCity m = qloc.1 then same_city_weight
  else coordScore dist distance_threshold_km qloc.2.1 qloc.2.2 m

/-- Lines 243-283: one formatted result. `location_score` is initialised to
`0` and computed only when a query location was resolved. -/
def toScored (dist : ℚ → ℚ → ℚ → ℚ → ℚ) (w th : ℚ)
    (query_location : Option QueryLocation) (c : Candidate) : ScoredResult :=
  { content := c.content
    metadata := c.metadata
    distance := c.distance
    location_score :=
      match query_location with
      | some qloc => locationScore dist w th qloc c.metadata
      | none => 0 }

/-- The `formatted_results` list of lines 243-283. -/
def formatResults (dist : ℚ → ℚ → ℚ → ℚ → ℚ) (w th : ℚ)
    (query_location : Option QueryLocation) (cs : List Candidate) :
    List ScoredResult :=
  cs.map (toScored dist w th query_location)

/-- The sort order of line 287: Python sorts by the key tuple
`(-location_score, distance)` ascending, so `a` may come before `b` iff
`a`'s location score is strictly larger, or the scores are equal and `a`'s
semantic distance is at most `b`'s. Boolean form used by the sort. -/
def keyLEb (a b : ScoredResult) : Bool :=
  decide (b.location_score < a.location_score) ||
    (decide (a.location_score = b.location_score) && decide (a.distance ≤ b.distance))

/-- Propositional form of the composite-key order of line 287. -/
def keyLE (a b : ScoredResult) : Prop :=
  b.location_score < a.location_score ∨
    (a.location_score = b.location_score ∧ a.distance ≤ b.distance)

/-- `search_similar_with_location` (lines 218-290) after the external vector
query returned the candidate pool `cs` and the query location resolved to
`query_location`: score every candidate, sort by `(-location_score,
distance)` ascending, truncate to the first `n_results` entries. -/
def search_similar_with_location (dist : ℚ → ℚ → ℚ → ℚ → ℚ) (w th : ℚ)
    (query_location : Option QueryLocation) (cs : List Candidate)
    (n_results : ℕ) : List ScoredResult :=
  ((formatResults dist w th query_location cs).mergeSort keyLEb).take n_results

/-- Line 236: the size of the candidate pool requested from the vector store
is `min(n_results * 3, 20)`. -/
def candidatePoolSize (n_results : ℕ) : ℕ := min (n_results * 3) 20

/-- One record of `fukui_enhanced_locations.json` as read by
`extract_location_from_query` (lines 183-206): the `original_data` city name
(defaulted to `""` when absent), the optional Google Maps `geometry.location`
with its `lat`/`lng` fields, and the optional original latitude/longitude. -/
structure LocationRecord where
  city : String
  google_location : Option (CoordVal × CoordVal)
  original_latitude : Option CoordVal
  original_longitude : Option CoordVal
deriving DecidableEq

/-- Lines 186-195: the Google Maps coordinate of a record, available when the
`geometry.location` entry is present and both fields convert to floats. -/
def googleCoord (r : LocationRecord) : Option (ℚ × ℚ) :=
  match r.google_location with
  | some (latv, lngv) =>
    match pyFloat latv, pyFloat lngv with
    | some lat, some lng => some (lat, lng)
    | _, _ => none
  | none => none

/-- Lines 197-206: the fallback coordinate taken from `original_data`'s
`latitude`/`longitude`, when both are present and convert to floats. -/
def originalCoord (r : LocationRecord) : Option (ℚ × ℚ) :=
  match r.original_latitude, r.original_longitude with
  | some latv, some lngv =>
    match pyFloat latv, pyFloat lngv with
    | some lat, some lng => some (lat, lng)
    | _, _ => none
  | _, _ => none

/-- Lines 184-206, for one record: the coordinate the resolver attaches to
the record's city — the Google Maps coordinate when it is usable, otherwise
the original coordinate (the second `if city not in city_coords` on line 198
only fires when the Google branch did not insert). -/
def recordCoord (r : LocationRecord) : Option (ℚ × ℚ) :=
  match googleCoord r with
  | some c => some c
  | none => originalCoord r

/-- Lines 182-206: build the `city_coords` gazetteer. Python dicts preserve
insertion order, so the mapping is an insertion-ordered association list;
the first record that yields a usable coordinate for a city wins, and
records with an empty city or no usable coordinate contribute nothing. -/
def buildCityCoords (records : List LocationRecord) : List (String × ℚ × ℚ) :=
  records.foldl (fun acc r =>
    if r.city ≠ "" ∧ acc.all (fun e => e.1 ≠ r.city) then
      match recordCoord r with
      | some (lat, lng) => acc ++ [(r.city, lat, lng)]
      | none => acc
    else acc) []

/-- Python's substring containment `needle in hay`, on character lists.
The empty needle is contained in every string. -/
def containsSub (needle : List Char) : List Char → Bool
  | [] => needle.isEmpty
  | c :: rest => needle.isPrefixOf (c :: rest) || containsSub needle rest

/-- Python `city in query` on strings (line 210). -/
def strIn (city query : String) : Bool := containsSub city.data query.data

/-- `extract_location_from_query` (lines 158-216). The `corpus` argument
models the backing JSON file: `none` when the file is missing, unreadable or
malformed (lines 175-176 return `None`; any exception while reading or
scanning is caught on lines 213-214 and also yields `None`), `some records`
when it loads. The gazetteer is scanned in build order and the first city
name contained in the query is returned with its coordinate (lines
209-211); otherwise the result is `None`. The function is total: the Python
body never lets an exception escape to the caller. -/
def extract_location_from_query (corpus : Option (List LocationRecord))
    (query : String) : Option QueryLocation :=
  match corpus with
  | none => none
  | some records => (buildCityCoords records).find? (fun e => strIn e.1 query)

/-! Concrete inputs used to exercise the definitions on closed instances. -/

/-- A concrete distance function standing in for the injected
`self.calculate_distance` collaborator: constantly 5 km. -/
def wDist : ℚ → ℚ → ℚ → ℚ → ℚ := fun _ _ _ _ => 5

/-- A well-formed candidate: city 勝山市, parseable coordinates. -/
def goodCand : Candidate :=
  ⟨"勝山城の案内", ⟨some "勝山市", some (.ok 36), some (.ok 136)⟩, 0⟩

/-- A candidate with a malformed latitude field (`float` raises on it). -/
def badCand : Candidate :=
  ⟨"座標が壊れた文書", ⟨some "敦賀市", some .malformed, some (.ok 135)⟩, 1⟩

/-- A resolved query location: 福井市 at (36, 136). -/
def demoLoc : QueryLocation := ("福井市", 36, 136)

/-- A small corpus: one record with a Google coordinate, one with only the
original coordinate. -/
def demoRecords : List LocationRecord :=
  [⟨"福井市", some (.ok 36, .ok 136), none, none⟩,
   ⟨"敦賀市", none, some (.ok 35), some (.ok 135)⟩]

/-- A record carrying both a Google Maps coordinate (35, 135) and a distinct
original coordinate (1, 2). -/
def bothCoordRecord : LocationRecord :=
  ⟨"小浜市", some (.ok 35, .ok 135), some (.ok 1), some (.ok 2)⟩

/-- Python `math.radians(x)`. -/
noncomputable def radians (x : ℝ) : ℝ := x * Real.pi / 180

/-- `calculate_distance` (lines 126-156): great-circle distance in km by the
Haversine formula over a sphere of radius 6371 km, written out with the
source's intermediate quantities `dlat`, `dlng`, `a`, `c` inlined. -/
noncomputable def calculate_distance (lat1 lng1 lat2 lng2 : ℝ) : ℝ :=
  6371 * (2 * Real.arcsin (Real.sqrt (
    Real.sin ((radians lat2 - radians lat1) / 2) ^ 2 +
    Real.cos (radians lat1) * Real.cos (radians lat2) *
      Real.sin ((radians lng2 - radians lng1) / 2) ^ 2)))

/-! Shared lemmas about the composite sort order, the gazetteer and the
scoring function. -/

/-- The composite-key order is transitive. -/
theorem keyLEb_trans : ∀ a b c : ScoredResult,
    keyLEb a b = true → keyLEb b c = true → keyLEb a c = true := by
  intro a b c hab hbc
  simp only [keyLEb, Bool.or_eq_true, Bool.and_eq_true, decide_eq_true_eq] at *
  rcases hab with h1 | ⟨h1, h2⟩ <;> rcases hbc with h3 | ⟨h3, h4⟩
  · exact Or.inl (h3.trans h1)
  · exact Or.inl (h3 ▸ h1)
  · exact Or.inl (h1 ▸ h3)
  · exact Or.inr ⟨h1.trans h3, h2.trans h4⟩

/-- The composite-key order is total. -/
theorem keyLEb_total : ∀ a b : ScoredResult, (keyLEb a b || keyLEb b a) = true := by
  intro a b
  simp only [keyLEb, Bool.or_eq_true, Bool.and_eq_true, decide_eq_true_eq]
  rcases lt_trichotomy a.location_score b.location_score with h | h | h
  · tauto
  · rcases le_total a.distance b.distance with h2 | h2 <;> tauto
  · tauto

/-- The boolean and propositional forms of the composite-key order agree. -/
theorem keyLEb_iff (a b : ScoredResult) : keyLEb a b = true ↔ keyLE a b := by
  simp [keyLEb, keyLE]

/-- `List.find?` returns `some b` exactly when `b` satisfies the predicate
and is the first element of the list doing so. -/
theorem find?_first {α : Type} (p : α → Bool) (l : List α) (b : α) :
    l.find? p = some b ↔
      p b = true ∧ ∃ l1 l2, l = l1 ++ b :: l2 ∧ ∀ x ∈ l1, p x = false := by
  induction l with
  | nil => simp
  | cons a t ih =>
    cases hpa : p a with
    | true =>
      rw [List.find?_cons_of_pos _ hpa]
      constructor
      · intro h
        obtain rfl : a = b := by injection h
        exact ⟨hpa, [], t, rfl, by simp⟩
      · rintro ⟨hb, l1, l2, heq, hall⟩
        cases l1 with
        | nil =>
          obtain rfl : a = b := by injection heq
          rfl
        | cons x xs =>
          injection heq with h1 h2
          subst h1
          exact absurd hpa (by simp [hall a (by simp)])
    | false =>
      rw [List.find?_cons_of_neg _ (by simp [hpa]), ih]
      constructor
      · rintro ⟨hb, l1, l2, heq, hall⟩
        exact ⟨hb, a :: l1, l2, by simp [heq], by
          intro x hx
          rcases List.mem_cons.mp hx with rfl | hx
          · exact hpa
          · exact hall x hx⟩
      · rintro ⟨hb, l1, l2, heq, hall⟩
        cases l1 with
        | nil =>
          obtain rfl : a = b := by injection heq
          simp [hpa] at hb
        | cons x xs =>
          injection heq with h1 h2
          subst h1
          exact ⟨hb, xs, l2, h2, fun y hy => hall y (by simp [hy])⟩

/-- Every gazetteer entry carries a non-empty city name: line 185 only
inserts a city that passed the truthiness test `if city`. -/
theorem buildCityCoords_city_ne (records : List LocationRecord) :
    ∀ e ∈ buildCityCoords records, e.1 ≠ "" := by
  suffices h : ∀ acc : List (String × ℚ × ℚ), (∀ e ∈ acc, e.1 ≠ "") →
      ∀ e ∈ records.foldl (fun acc r =>
        if r.city ≠ "" ∧ acc.all (fun e => e.1 ≠ r.city) then
          match recordCoord r with
          | some (lat, lng) => acc ++ [(r.city, lat, lng)]
          | none => acc
        else acc) acc, e.1 ≠ "" by
    exact h [] (by simp)
  induction records with
  | nil => intro acc hacc; simpa using hacc
  | cons r rs ih =>
    intro acc hacc e he
    simp only [List.foldl_cons] at he
    refine ih _ ?_ e he
    by_cases hc : r.city ≠ "" ∧ acc.all (fun e => e.1 ≠ r.city)
    · rw [if_pos hc]
      cases hrc : recordCoord r with
      | none => simpa using hacc
      | some c =>
        obtain ⟨lat, lng⟩ := c
        intro x hx
        rcases List.mem_append.mp hx with hx | hx
        · exact hacc x hx
        · simp at hx
          subst hx
          exact hc.1
    · rw [if_neg hc]; exact hacc

/-- When the candidate is not in the query city and one of its coordinate
fields is absent or fails float conversion, its location score is 0. -/
theorem locationScore_eq_zero_of_none (dist : ℚ → ℚ → ℚ → ℚ → ℚ) (w th : ℚ)
    (qloc : QueryLocation) (m : Metadata) (hc : getCity m ≠ qloc.1)
    (hn : m.latitude.bind pyFloat = none ∨ m.longitude.bind pyFloat = none) :
    locationScore dist w th qloc m = 0 := by
  simp only [locationScore, coordScore]
  rw [if_neg hc]
  rcases hn with hn | hn
  · rw [hn]
  · rw [hn]
    cases m.latitude.bind pyFloat <;> rfl

/-! The claims. -/

/-- C1: for every candidate list, reference location and limit, the
re-ranker returns the scored candidates sorted by the composite key
`(-location_score, semantic_distance)` ascending — a strictly higher
location score always comes first, and among equal location scores the
lower semantic distance comes first — and then truncated to the first
`limit` entries. -/
theorem rerank_sorted_by_composite_key (dist : ℚ → ℚ → ℚ → ℚ → ℚ) (w th : ℚ)
    (ql : Option QueryLocation) (cs : List Candidate) (n : ℕ) :
    ∃ full : List ScoredResult,
      full.Perm (formatResults dist w th ql cs) ∧
      List.Pairwise keyLE full ∧
      search_similar_with_location dist w th ql cs n = full.take n := by
  refine ⟨(formatResults dist w th ql cs).mergeSort keyLEb,
    List.mergeSort_perm _ _, ?_, rfl⟩
  have h := List.sorted_mergeSort keyLEb_trans keyLEb_total
    (formatResults dist w th ql cs)
  exact h.imp (fun hab => (keyLEb_iff _ _).mp hab)

/-- C2: against a present reference location, a candidate whose city equals
the reference city scores `same_city_weight`; otherwise, with parseable
coordinates, it scores `max(0, (threshold - d) / threshold)` when
`d ≤ threshold` and 0 beyond the threshold; with no usable coordinates it
scores 0. The hypothesis `0 < distance_threshold_km` reflects the
configured domain (default 20.0): at threshold 0 the Python code would
raise `ZeroDivisionError` out of the per-item handler instead. -/
theorem location_score_formula (dist : ℚ → ℚ → ℚ → ℚ → ℚ) (w th : ℚ)
    (hth : 0 < th) (qc : String) (qlat qlng : ℚ) (m : Metadata) :
    (getCity m = qc → locationScore dist w th (qc, qlat, qlng) m = w) ∧
    (getCity m ≠ qc →
      ∀ rlat rlng : ℚ, m.latitude.bind pyFloat = some rlat →
        m.longitude.bind pyFloat = some rlng →
        ((dist qlat qlng rlat rlng ≤ th →
           locationScore dist w th (qc, qlat, qlng) m =
             pyMax 0 ((th - dist qlat qlng rlat rlng) / th)) ∧
         (th < dist qlat qlng rlat rlng →
           locationScore dist w th (qc, qlat, qlng) m = 0))) ∧
    (getCity m ≠ qc →
      (m.latitude.bind pyFloat = none ∨ m.longitude.bind pyFloat = none) →
      locationScore dist w th (qc, qlat, qlng) m = 0) := by
  refine ⟨fun hc => ?_, fun hc rlat rlng hla hlo => ?_, fun hc hn => ?_⟩
  · simp [locationScore, hc]
  · constructor <;> intro hd
    · simp only [locationScore, coordScore, hla, hlo]
      rw [if_neg hc, if_pos hd]
    · simp only [locationScore, coordScore, hla, hlo]
      rw [if_neg hc, if_neg (not_le.mpr hd)]
  · exact locationScore_eq_zero_of_none dist w th (qc, qlat, qlng) m hc hn

/-- Witness for C2: the three branches evaluated on concrete inputs — the
reference is 福井市 at (36, 136) and the constant 5 km distance function is
used, so a 福井市 candidate earns the bonus 2, a 敦賀市 candidate with good
coordinates earns `max(0, (20 - 5) / 20)`, and one with a malformed
latitude earns 0. -/
theorem location_score_formula_witness :
    locationScore wDist 2 20 ("福井市", 36, 136) ⟨some "福井市", none, none⟩ = 2 ∧
    locationScore wDist 2 20 ("福井市", 36, 136)
      ⟨some "敦賀市", some (.ok 35), some (.ok 135)⟩ = pyMax 0 ((20 - 5) / 20) ∧
    locationScore wDist 2 20 ("福井市", 36, 136)
      ⟨some "敦賀市", some .malformed, some (.ok 135)⟩ = 0 :=
  ⟨(location_score_formula wDist 2 20 (by decide) "福井市" 36 136
      ⟨some "福井市", none, none⟩).1 rfl,
   ((location_score_formula wDist 2 20 (by decide) "福井市" 36 136
      ⟨some "敦賀市", some (.ok 35), some (.ok 135)⟩).2.1
      (by decide) 35 135 rfl rfl).1 (by decide),
   (location_score_formula wDist 2 20 (by decide) "福井市" 36 136
      ⟨some "敦賀市", some .malformed, some (.ok 135)⟩).2.2
      (by decide) (Or.inl rfl)⟩

/-- C3: the re-ranker returns at most `limit` items, the output is a
truncation of a permutation of the scored candidate set, and every output
item takes its content, metadata and semantic distance from some input
candidate — nothing is fabricated. -/
theorem rerank_no_fabrication (dist : ℚ → ℚ → ℚ → ℚ → ℚ) (w th : ℚ)
    (ql : Option QueryLocation) (cs : List Candidate) (n : ℕ) :
    (search_similar_with_location dist w th ql cs n).length ≤ n ∧
    (∃ full : List ScoredResult, full.Perm (formatResults dist w th ql cs) ∧
      search_similar_with_location dist w th ql cs n = full.take n) ∧
    ∀ r ∈ search_similar_with_location dist w th ql cs n,
      ∃ c ∈ cs, r.content = c.content ∧ r.metadata = c.metadata ∧
        r.distance = c.distance := by
  refine ⟨?_, ⟨(formatResults dist w th ql cs).mergeSort keyLEb,
    List.mergeSort_perm _ _, rfl⟩, ?_⟩
  · simp only [search_similar_with_location]
    rw [List.length_take]
    exact min_le_left _ _
  · intro r hr
    have hr1 := List.mem_of_mem_take hr
    have hr2 := (List.mergeSort_perm _ keyLEb).mem_iff.mp hr1
    obtain ⟨c, hc, rfl⟩ := List.mem_map.mp hr2
    exact ⟨c, hc, rfl, rfl, rfl⟩

/-- Witness for C3 at a concrete pool and limit 1: the output length is
bounded by the limit. -/
theorem rerank_no_fabrication_witness :
    (search_similar_with_location wDist 2 20 (some demoLoc)
      [goodCand, badCand] 1).length ≤ 1 :=
  (rerank_no_fabrication wDist 2 20 (some demoLoc) [goodCand, badCand] 1).1

/-- C4: with no reference location every candidate keeps `location_score = 0`
and the re-ranker degenerates to ordering by ascending semantic distance,
truncated to the limit; when the limit covers the whole pool the output is
exactly the scored input set sorted by ascending semantic distance. -/
theorem rerank_without_reference (dist : ℚ → ℚ → ℚ → ℚ → ℚ) (w th : ℚ)
    (cs : List Candidate) (n : ℕ) :
    ∃ full : List ScoredResult,
      full.Perm (cs.map (fun c => ⟨c.content, c.metadata, c.distance, 0⟩)) ∧
      List.Pairwise (fun a b => a.distance ≤ b.distance) full ∧
      search_similar_with_location dist w th none cs n = full.take n ∧
      (∀ r ∈ search_similar_with_location dist w th none cs n,
        r.location_score = 0) ∧
      (cs.length ≤ n → search_similar_with_location dist w th none cs n = full) := by
  have hfmt : formatResults dist w th none cs
      = cs.map (fun c => ⟨c.content, c.metadata, c.distance, 0⟩) := by
    simp [formatResults, toScored]
  refine ⟨(formatResults dist w th none cs).mergeSort keyLEb, ?_, ?_, rfl, ?_, ?_⟩
  · rw [← hfmt]; exact List.mergeSort_perm _ _
  · have hsorted := List.sorted_mergeSort keyLEb_trans keyLEb_total
      (formatResults dist w th none cs)
    have hmem : ∀ r ∈ (formatResults dist w th none cs).mergeSort keyLEb,
        r.location_score = 0 := by
      intro r hr
      have hr' := (List.mergeSort_perm (formatResults dist w th none cs)
        keyLEb).mem_iff.mp hr
      rw [hfmt] at hr'
      obtain ⟨c, _, rfl⟩ := List.mem_map.mp hr'
      rfl
    refine hsorted.imp_of_mem ?_
    intro a b ha hb hab
    simp only [keyLEb, Bool.or_eq_true, Bool.and_eq_true, decide_eq_true_eq,
      hmem a ha, hmem b hb] at hab
    rcases hab with h | ⟨-, h⟩
    · exact absurd h (lt_irrefl 0)
    · exact h
  · intro r hr
    have hr1 := List.mem_of_mem_take hr
    have hr2 := (List.mergeSort_perm (formatResults dist w th none cs)
      keyLEb).mem_iff.mp hr1
    rw [hfmt] at hr2
    obtain ⟨c, _, rfl⟩ := List.mem_map.mp hr2
    rfl
  · intro hle
    apply List.take_of_length_le
    rw [(List.mergeSort_perm _ _).length_eq, formatResults, List.length_map]
    exact hle

/-- Witness for C4: on a two-candidate pool with limit 5 (≥ pool size) and
no reference, the whole pool comes back. -/
theorem rerank_without_reference_witness :
    (search_similar_with_location wDist 2 20 none [goodCand, badCand] 5).length = 2 := by
  obtain ⟨full, hperm, hsort, heq, hzero, hall⟩ :=
    rerank_without_reference wDist 2 20 [goodCand, badCand] 5
  rw [hall (by decide)]
  simpa using hperm.length_eq

/-- C5: a candidate whose coordinate fields make `float` raise does not
abort the batch — it is scored 0 (when its city does not match the
reference), every candidate of the pool is still scored into the formatted
list, the output has the full truncated length `min limit pool-size`, and
the output is still an ordered truncation of a permutation of the scored
pool. -/
theorem rerank_malformed_fail_open (dist : ℚ → ℚ → ℚ → ℚ → ℚ) (w th : ℚ)
    (qloc : QueryLocation) (cs : List Candidate) (c : Candidate) (n : ℕ)
    (hmem : c ∈ cs) (hcity : getCity c.metadata ≠ qloc.1)
    (hbad : c.metadata.latitude = some .malformed ∨
      c.metadata.longitude = some .malformed) :
    (toScored dist w th (some qloc) c).location_score = 0 ∧
    (∀ c' ∈ cs, toScored dist w th (some qloc) c' ∈
      formatResults dist w th (some qloc) cs) ∧
    (search_similar_with_location dist w th (some qloc) cs n).length
      = min n cs.length ∧
    ∃ full : List ScoredResult,
      full.Perm (formatResults dist w th (some qloc) cs) ∧
      List.Pairwise keyLE full ∧
      search_similar_with_location dist w th (some qloc) cs n = full.take n := by
  refine ⟨?_, ?_, ?_, ?_⟩
  · show locationScore dist w th qloc c.metadata = 0
    apply locationScore_eq_zero_of_none dist w th qloc c.metadata hcity
    rcases hbad with h | h
    · exact Or.inl (by rw [h]; rfl)
    · exact Or.inr (by rw [h]; rfl)
  · intro c' hc'
    exact List.mem_map_of_mem _ hc'
  · simp only [search_similar_with_location]
    rw [List.length_take, (List.mergeSort_perm _ _).length_eq]
    simp [formatResults]
  · exact ⟨(formatResults dist w th (some qloc) cs).mergeSort keyLEb,
      List.mergeSort_perm _ _,
      (List.sorted_mergeSort keyLEb_trans keyLEb_total _).imp
        (fun h => (keyLEb_iff _ _).mp h), rfl⟩

/-- Witness for C5: `badCand` (malformed latitude, city 敦賀市 ≠ 福井市) in a
two-candidate pool scores 0, the good candidate is still scored into the
pool, and the output keeps the full truncated length. -/
theorem rerank_malformed_fail_open_witness :
    (toScored wDist 2 20 (some demoLoc) badCand).location_score = 0 ∧
    toScored wDist 2 20 (some demoLoc) goodCand ∈
      formatResults wDist 2 20 (some demoLoc) [goodCand, badCand] ∧
    (search_similar_with_location wDist 2 20 (some demoLoc)
      [goodCand, badCand] 2).length = min 2 [goodCand, badCand].length :=
  ⟨(rerank_malformed_fail_open wDist 2 20 demoLoc [goodCand, badCand] badCand 2
      (by decide) (by decide) (Or.inl rfl)).1,
   (rerank_malformed_fail_open wDist 2 20 demoLoc [goodCand, badCand] badCand 2
      (by decide) (by decide) (Or.inl rfl)).2.1 goodCand (by decide),
   (rerank_malformed_fail_open wDist 2 20 demoLoc [goodCand, badCand] badCand 2
      (by decide) (by decide) (Or.inl rfl)).2.2.1⟩

/-- C6: the location resolver returns `none` on a missing/unreadable/
malformed corpus (and, being a total function, never raises); on a loaded
corpus it returns `some e` exactly when `e` is the first gazetteer entry,
in build order, whose city name occurs as a substring of the query, and
`none` exactly when no gazetteer city name occurs in the query. -/
theorem extract_location_resolution (q : String) :
    extract_location_from_query none q = none ∧
    (∀ (records : List LocationRecord) (e : String × ℚ × ℚ),
      extract_location_from_query (some records) q = some e ↔
        strIn e.1 q = true ∧
        ∃ l1 l2, buildCityCoords records = l1 ++ e :: l2 ∧
          ∀ x ∈ l1, strIn x.1 q = false) ∧
    (∀ records : List LocationRecord,
      extract_location_from_query (some records) q = none ↔
        ∀ x ∈ buildCityCoords records, strIn x.1 q = false) := by
  refine ⟨rfl, ?_, ?_⟩
  · intro records e
    exact find?_first _ _ _
  · intro records
    rw [show extract_location_from_query (some records) q
        = (buildCityCoords records).find? (fun e => strIn e.1 q) from rfl,
      List.find?_eq_none]
    constructor
    · intro h x hx
      simpa using h x hx
    · intro h x hx
      simp [h x hx]

/-- Witness for C6: a missing corpus resolves to `none`; on the demo corpus
the query 敦賀市のグルメ resolves to the 敦賀市 entry (the 福井市 entry built
before it does not match), and a query naming no gazetteer city resolves to
`none`. -/
theorem extract_location_resolution_witness :
    extract_location_from_query none "敦賀市のグルメ" = none ∧
    extract_location_from_query (some demoRecords) "敦賀市のグルメ"
      = some ("敦賀市", 35, 135) ∧
    extract_location_from_query (some demoRecords) "パリの天気" = none :=
  ⟨(extract_location_resolution "敦賀市のグルメ").1,
   ((extract_location_resolution "敦賀市のグルメ").2.1 demoRecords
      ("敦賀市", 35, 135)).mpr
      ⟨by decide, [("福井市", 36, 136)], [], by decide, by decide⟩,
   ((extract_location_resolution "パリの天気").2.2 demoRecords).mpr (by decide)⟩

/-- C7 counterexample: the claim says the Resolver applies no preference
between the externally-geocoded and the raw coordinate and only consumes a
single coordinate attached to a name. On `bothCoordRecord` — which carries
the Google Maps coordinate (35, 135) and the distinct original coordinate
(1, 2) — the Resolver's gazetteer builder itself picks the Google
coordinate and ignores the raw one, and picks the raw one as soon as the
Google entry is absent: the preference is applied inside
`extract_location_from_query` (lines 186-206), not upstream. -/
theorem resolver_preference_counterexample :
    googleCoord bothCoordRecord = some (35, 135) ∧
    originalCoord bothCoordRecord = some (1, 2) ∧
    recordCoord bothCoordRecord = some (35, 135) ∧
    recordCoord bothCoordRecord ≠ some (1, 2) ∧
    recordCoord { bothCoordRecord with google_location := none } = some (1, 2) ∧
    buildCityCoords [bothCoordRecord] = [("小浜市", 35, 135)] := by
  refine ⟨rfl, rfl, rfl, by decide, rfl, by decide⟩

/-- C7 as amended: the Resolver itself applies the preference between the
two coordinates a record may carry — for each record it uses the Google
Maps coordinate whenever that is present and parseable, and falls back to
the record's raw latitude/longitude only when it is not. -/
theorem recordCoord_prefers_google (r : LocationRecord) :
    (∀ c : ℚ × ℚ, googleCoord r = some c → recordCoord r = some c) ∧
    (googleCoord r = none → recordCoord r = originalCoord r) := by
  constructor
  · intro c h
    simp [recordCoord, h]
  · intro h
    simp [recordCoord, h]

/-- Witness for the amended C7, on `bothCoordRecord` and its Google-less
variant. -/
theorem recordCoord_prefers_google_witness :
    recordCoord bothCoordRecord = some (35, 135) ∧
    recordCoord { bothCoordRecord with google_location := none }
      = originalCoord { bothCoordRecord with google_location := none } :=
  ⟨(recordCoord_prefers_google bothCoordRecord).1 (35, 135) (by decide),
   (recordCoord_prefers_google
      { bothCoordRecord with google_location := none }).2 (by decide)⟩

/-- C8 counterexample: the pool size is `min(n_results * 3, 20)`, which is
not "at least 3 × n_results" at `n_results = 7` (20 < 21) and not
"strictly larger than n_results" at `n_results = 20` (20 = 20). -/
theorem candidate_pool_counterexample :
    candidatePoolSize 7 = 20 ∧ ¬ (3 * 7 ≤ candidatePoolSize 7) ∧
    candidatePoolSize 20 = 20 ∧ ¬ (20 < candidatePoolSize 20) := by decide

/-- C8 as amended: the requested pool size is exactly
`min(3 * n_results, 20)`; it is strictly larger than `n_results` only for
`0 < n_results < 20`, and at least `3 * n_results` only when
`3 * n_results ≤ 20`. -/
theorem candidate_pool_size_spec (n : ℕ) :
    candidatePoolSize n = min (3 * n) 20 ∧
    (0 < n → n < 20 → n < candidatePoolSize n) ∧
    (3 * n ≤ 20 → candidatePoolSize n = 3 * n) := by
  unfold candidatePoolSize
  omega

/-- Witness for the amended C8 at the source's default `n_results = 5`. -/
theorem candidate_pool_size_spec_witness :
    candidatePoolSize 5 = min (3 * 5) 20 ∧ 5 < candidatePoolSize 5 ∧
    candidatePoolSize 5 = 3 * 5 :=
  ⟨(candidate_pool_size_spec 5).1,
   (candidate_pool_size_spec 5).2.1 (by decide) (by decide),
   (candidate_pool_size_spec 5).2.2 (by decide)⟩

/-- C9: the Haversine distance is symmetric in its two coordinates, and the
distance from a coordinate to itself is exactly 0 (the real-valued model is
exact, which subsumes the floating-point tolerance of the claim). -/
theorem calculate_distance_symm_zero :
    (∀ lat1 lng1 lat2 lng2 : ℝ,
      calculate_distance lat1 lng1 lat2 lng2
        = calculate_distance lat2 lng2 lat1 lng1) ∧
    (∀ lat lng : ℝ, calculate_distance lat lng lat lng = 0) := by
  constructor
  · intro a b c d
    unfold calculate_distance
    have h1 : (radians a - radians c) / 2 = -((radians c - radians a) / 2) := by
      ring
    have h2 : (radians b - radians d) / 2 = -((radians d - radians b) / 2) := by
      ring
    rw [h1, h2, Real.sin_neg, Real.sin_neg]
    ring_nf
  · intro lat lng
    unfold calculate_distance
    simp

/-- C10: a candidate with no city key, or an empty city, can never take the
same-city bonus branch: every gazetteer entry has a non-empty city name, so
a resolved reference city is non-empty and the equality test against the
candidate's defaulted-empty city fails — the score falls through to the
coordinate branch. -/
theorem empty_city_never_bonus (records : List LocationRecord) (q : String)
    (qloc : QueryLocation) (dist : ℚ → ℚ → ℚ → ℚ → ℚ) (w th : ℚ) (m : Metadata)
    (hres : extract_location_from_query (some records) q = some qloc)
    (hcity : m.city = none ∨ m.city = some "") :
    getCity m ≠ qloc.1 ∧
    locationScore dist w th qloc m = coordScore dist th qloc.2.1 qloc.2.2 m := by
  have hmem : qloc ∈ buildCityCoords records := List.mem_of_find?_eq_some hres
  have hne : qloc.1 ≠ "" := buildCityCoords_city_ne records qloc hmem
  have hg : getCity m = "" := by
    rcases hcity with h | h <;> simp [getCity, h]
  have hgc : getCity m ≠ qloc.1 := by
    rw [hg]
    exact fun h => hne h.symm
  refine ⟨hgc, ?_⟩
  simp only [locationScore]
  rw [if_neg hgc]

/-- Witness for C10: against the demo corpus resolving 福井市, a candidate
with an absent city and good coordinates is scored by the coordinate branch
(no bonus). -/
theorem empty_city_never_bonus_witness :
    getCity ⟨none, some (.ok 35), some (.ok 135)⟩ ≠ ("福井市", (36 : ℚ), (136 : ℚ)).1 ∧
    locationScore wDist 2 20 ("福井市", 36, 136) ⟨none, some (.ok 35), some (.ok 135)⟩
      = coordScore wDist 20 36 136 ⟨none, some (.ok 35), some (.ok 135)⟩ :=
  empty_city_never_bonus demoRecords "福井市でおすすめは" ("福井市", 36, 136)
    wDist 2 20 ⟨none, some (.ok 35), some (.ok 135)⟩ (by decide) (Or.inl rfl)

end ChromaDB
